import Mathlib

/-!
Verification development for the AudienceLab Angular SDK core: the
token-caching + retention-tracking + webhook-dispatch orchestration layer
(`audiencelab.service`, `utils/retentionCalculator`) together with the
`getTimezone` utility.

The orchestration layer and the retention calculator are not present among
the repository files available here (only their unit and integration tests
are), so those components are modelled from the specification, with the
exact message strings and endpoint constants taken from the tests.  The
`getTimezone` utility is embedded directly from
`src/utils/metrics/getTimezone.ts`.

The embedding is a pure state-passing one: the persistent key-value store
(localStorage) is a function from keys to optional string values, every
asynchronous operation becomes a function from the service state, the store
and an environment (clock, device probe, network) to a result, an updated
store and the list of network calls it issued.  Errors (JavaScript throws /
rejected promises) are an explicit `Except`.
-/

namespace AudienceLab

/-! ## The persistent key-value store -/

/-- Modelled from the spec: the persistent key-value store (localStorage via
`utils/storageFunctionalities`), a scoped string-to-string map.  `none` is an
absent key. -/
def Store : Type := String → Option String

/-- Modelled from the spec: `saveItem` writes one key. -/
def saveItem (store : Store) (key value : String) : Store :=
  fun k => if k = key then some value else store k

/-- Storage key for the cached creative token. -/
def creativeTokenKey : String := "creativeToken"

/-- Storage key for the first-login date. -/
def firstLoginDateKey : String := "firstLoginDate"

/-- Storage key for the last-sent-metric date. -/
def lastSentMetricDateKey : String := "lastSentMetricDate"

/-- Storage key for the retention day counter. -/
def retentionDayKey : String := "retentionDay"

/-! ## Calendar dates

The SDK stores calendar dates as locale-formatted strings
(`toLocaleDateString` with day/month/year and no time component) and gates
retention on string equality of two such renderings; the retention
calculator then works at calendar-day granularity.  A date is modelled as
the number of calendar days since an epoch; the environmental en-GB
rendering is modelled as an injective encoding of that day index, with
`parseDate` its inverse. -/

/-- Modelled from the spec: the day/month/year rendering of a calendar day,
abstracted to an injective executable encoding of the day index. -/
def formatDate (d : Nat) : String :=
  String.mk (List.replicate d '/')

/-- Modelled from the spec: recover the calendar-day index from a stored
date rendering. -/
def parseDate (s : String) : Nat :=
  s.data.length

theorem parseDate_formatDate (d : Nat) : parseDate (formatDate d) = d := by
  simp [parseDate, formatDate]

theorem natToString_zero : toString (0 : Nat) = "0" := rfl

theorem formatDate_injective : Function.Injective formatDate := by
  intro a b h
  have := congrArg parseDate h
  simpa [parseDate_formatDate] using this

/-! ## Retention calculator (`utils/retentionCalculator`) -/

/-- Modelled from the spec: the retention calculator's result, a pair of
decimal-string-encoded non-negative integers. -/
structure RetentionResult where
  retentionDay : String
  backfillDay : String
deriving DecidableEq, Repr

/-- Modelled from the spec: `updateRetention` (the spec's
`computeRetention`), the pure logic of `utils/retentionCalculator` over the
store, given today's calendar day.  If the stored Last-Sent-Metric Date
equals today's rendering it returns `none` with no side effect; otherwise it
reads the First-Login Date (initializing it to today if absent — the
first-run bootstrap, the spec's `initializeFirstLogin`), computes
`retentionDay = floor((today - firstLoginDate) / 1 day)` and `backfillDay =
floor((today - lastSentDate) / 1 day)` (`0` if no prior send), persists
today's rendering as the new Last-Sent-Metric Date together with the new
Retention Day Counter, and returns both counters as decimal strings. -/
def updateRetention (today : Nat) (store : Store) :
    Option RetentionResult × Store :=
  if store lastSentMetricDateKey = some (formatDate today) then
    (none, store)
  else
    let firstPair :=
      match store firstLoginDateKey with
      | some s => (s, store)
      | none => (formatDate today, saveItem store firstLoginDateKey (formatDate today))
    let retentionDay := today - parseDate firstPair.1
    let backfillDay :=
      match store lastSentMetricDateKey with
      | some s => today - parseDate s
      | none => 0
    let store2 := saveItem firstPair.2 lastSentMetricDateKey (formatDate today)
    let store3 := saveItem store2 retentionDayKey (toString retentionDay)
    (some ⟨toString retentionDay, toString backfillDay⟩, store3)

/-! ## HTTP transport and the error classifier -/

/-- A failed HTTP call: either a response with an error status and a server
body, or no response at all (network-level failure). -/
inductive HttpFailure where
  | httpError (status : Nat) (data : String)
  | noResponse
deriving DecidableEq, Repr

/-- Outcome of one HTTP call: a 2xx response carrying the response body, or
a failure. -/
inductive HttpResult where
  | ok (body : String)
  | fail (e : HttpFailure)
deriving DecidableEq, Repr

/-- Modelled from the spec: the error classifier `handleError` of the
service, mapping a failed HTTP call to its single human-readable message
(exact strings from the unit tests).  The source leaves unlisted statuses
implicit; following the spec's suggested default they map to a generic
request-failed message. -/
def handleError (e : HttpFailure) : String :=
  match e with
  | .httpError status data =>
    if status = 401 then "API key is not valid."
    else if status = 400 then "Bad request, data not formatted properly."
    else if status = 404 then "Request failed: " ++ data
    else if 500 ≤ status then "Server error: " ++ data
    else "Request failed: " ++ toString status ++ " " ++ data
  | .noResponse => "Failed to communicate with the server."

/-- Errors surfaced by the service: configuration errors (empty or missing
API key) and classified transport errors, each carrying its human-readable
message. -/
inductive SdkError where
  | configurationError (msg : String)
  | transportError (msg : String)
deriving DecidableEq, Repr

/-! ## Device probe, payloads and the webhook body -/

/-- Modelled from the spec: the device probe's result
(`utils/deviceMetrics.getDeviceMetrics`), best-effort descriptive strings. -/
structure DeviceMetrics where
  deviceName : String
  deviceModel : String
  osVersion : String
deriving DecidableEq, Repr

/-- Modelled from the spec: the token-issuance request body built by
`utils/preparePayload.prepareTokenPayload` — a flat mapping of environment
signals (timestamp, user-agent, timezone, device facts). -/
structure TokenPayload where
  timestamp : String
  userAgent : String
  timeZone : String
  device : DeviceMetrics
deriving DecidableEq, Repr

/-- Modelled from the spec: the `payload` field of a webhook body.  Purchase
and ad events have fixed shapes, retention events carry the retention
calculator's result, and `sendWebhookRequest` also accepts an arbitrary
caller-supplied mapping. -/
inductive Payload where
  | purchase (item_id : String) (item_name : String) (value : Rat)
      (currency : String) (status : String)
  | ad (ad_id : String) (name : String) (source : String) (watch_time : Rat)
      (reward : Bool) (media_source : String) (channel : String) (value : Rat)
      (currency : String)
  | retention (r : RetentionResult)
  | raw (fields : List (String × String))
deriving DecidableEq, Repr

/-- Modelled from the spec: the JSON body POSTed to the webhook endpoint.
The cached creative token and retention day counter may be absent from the
store and are then sent as absent. -/
structure WebhookBody where
  type : String
  created_at : String
  creativeToken : Option String
  device_name : String
  device_model : String
  os_system : String
  utc_offset : String
  retention_day : Option String
  payload : Payload
deriving DecidableEq, Repr

/-! ## Transport client, service state and environment -/

/-- The fixed analytics base endpoint (from the unit tests). -/
def analyticsBaseUrl : String := "https://analytics.geeklab.app"

/-- Modelled from the spec: the transport client (`createAxiosInstance`), an
HTTP client bound to the fixed analytics base endpoint and carrying the
`geeklab-api-key` header. -/
structure TransportClient where
  baseURL : String
  apiKeyHeader : String
deriving DecidableEq, Repr

/-- Build the transport client bound to the given API key. -/
def mkTransportClient (key : String) : TransportClient :=
  { baseURL := analyticsBaseUrl, apiKeyHeader := key }

/-- Modelled from the spec: the orchestrator's in-memory state — the API key
and the live transport client, both initially unset. -/
structure SdkState where
  apiKey : Option String := none
  client : Option TransportClient := none
deriving DecidableEq, Repr

/-- One network call issued by the service: a POST of the token payload to
the token-issuance endpoint (`/fetch-token`) or a POST of a webhook body to
the webhook endpoint (`/webhook`), each through the current transport
client. -/
inductive NetCall where
  | postFetchToken (client : Option TransportClient) (body : TokenPayload)
  | postWebhook (client : Option TransportClient) (body : WebhookBody)
deriving DecidableEq, Repr

/-- The environment an operation runs in: the clock (today's calendar day
and the ISO-8601 timestamp), the user agent, the timezone and device
probes, the local UTC offset, and the remote endpoints' behaviour as
functions from request body to HTTP outcome. -/
structure Env where
  today : Nat
  nowIso : String
  userAgent : String
  timeZone : String
  device : DeviceMetrics
  utcOffset : String
  tokenEndpoint : TokenPayload → HttpResult
  webhookEndpoint : WebhookBody → HttpResult

/-! ## The orchestrator's operations -/

/-- Modelled from the spec: `setApiKey` — fails with a configuration error
on an empty key (message from the unit tests), otherwise stores the key and
invalidates any existing transport client binding. -/
def setApiKey (st : SdkState) (key : String) : Except SdkError SdkState :=
  if key = "" then
    .error (.configurationError "API key cannot be empty")
  else
    .ok { st with apiKey := some key, client := none }

/-- Modelled from the spec: `getApiKey` — fails with a not-initialized
configuration error when no key was ever set (message from the unit
tests). -/
def getApiKey (st : SdkState) : Except SdkError String :=
  match st.apiKey with
  | some k => .ok k
  | none =>
    .error (.configurationError "API key not set. Call initializeAudiencelab first.")

/-- Modelled from the spec: `prepareTokenPayload` — a pure function
gathering environment signals into the token-issuance body; it never
throws. -/
def prepareTokenPayload (env : Env) : TokenPayload :=
  { timestamp := env.nowIso
    userAgent := env.userAgent
    timeZone := env.timeZone
    device := env.device }

/-- Modelled from the spec: `fetchCreativeToken` — returns the cached token
when one exists under `creativeToken` (no network call); otherwise builds
the token payload, issues one POST to the token-issuance endpoint, persists
and returns the returned token, and fails with the classified transport
error when the call fails.  Returns the result, the updated store and the
network calls issued. -/
def fetchCreativeToken (st : SdkState) (store : Store) (env : Env) :
    Except SdkError String × Store × List NetCall :=
  match store creativeTokenKey with
  | some tok => (.ok tok, store, [])
  | none =>
    let payload := prepareTokenPayload env
    match env.tokenEndpoint payload with
    | .ok tok =>
      (.ok tok, saveItem store creativeTokenKey tok, [.postFetchToken st.client payload])
    | .fail f =>
      (.error (.transportError (handleError f)), store, [.postFetchToken st.client payload])

/-- Modelled from the spec: the JSON body `sendWebhookRequest` assembles —
the event type, the ISO-8601 creation timestamp, the cached creative token
and retention day counter read from the store (absent keys sent as absent),
the device facts and the local UTC offset, and the caller's payload. -/
def webhookBodyOf (store : Store) (env : Env) (type : String) (payload : Payload) :
    WebhookBody :=
  { type := type
    created_at := env.nowIso
    creativeToken := store creativeTokenKey
    device_name := env.device.deviceName
    device_model := env.device.deviceModel
    os_system := env.device.osVersion
    utc_offset := env.utcOffset
    retention_day := store retentionDayKey
    payload := payload }

/-- Modelled from the spec: `sendWebhookRequest` — the single
network-dispatch primitive.  Assembles the webhook body, POSTs it to the
webhook endpoint through the current transport client, returns the response
body on HTTP 2xx and otherwise fails with the classified transport
error. -/
def sendWebhookRequest (st : SdkState) (store : Store) (env : Env)
    (type : String) (payload : Payload) :
    Except SdkError String × Store × List NetCall :=
  let body := webhookBodyOf store env type payload
  match env.webhookEndpoint body with
  | .ok r => (.ok r, store, [.postWebhook st.client body])
  | .fail f =>
    (.error (.transportError (handleError f)), store, [.postWebhook st.client body])

/-- Modelled from the spec: `sendUserMetrics` — invokes the retention
calculator; when it reports "already sent today" the call returns no result
with no network call, otherwise it dispatches one webhook of type
`retention` whose payload is exactly the retention result and returns the
webhook response body. -/
def sendUserMetrics (st : SdkState) (store : Store) (env : Env) :
    Except SdkError (Option String) × Store × List NetCall :=
  match updateRetention env.today store with
  | (none, store1) => (.ok none, store1, [])
  | (some ret, store1) =>
    match sendWebhookRequest st store1 env "retention" (.retention ret) with
    | (.ok r, store2, tr) => (.ok (some r), store2, tr)
    | (.error e, store2, tr) => (.error e, store2, tr)

/-- Modelled from the spec: `sendCustomPurchaseEvent` — builds the
fixed-shape purchase payload and dispatches one webhook of type
`custom.purchase`. -/
def sendCustomPurchaseEvent (st : SdkState) (store : Store) (env : Env)
    (id name : String) (value : Rat) (currency status : String) :
    Except SdkError String × Store × List NetCall :=
  sendWebhookRequest st store env "custom.purchase"
    (.purchase id name value currency status)

/-- Modelled from the spec: `sendCustomAdEvent` — builds the fixed-shape ad
payload and dispatches one webhook of type `custom.ad`. -/
def sendCustomAdEvent (st : SdkState) (store : Store) (env : Env)
    (adId name source : String) (watchTime : Rat) (reward : Bool)
    (mediaSource channel : String) (value : Rat) (currency : String) :
    Except SdkError String × Store × List NetCall :=
  sendWebhookRequest st store env "custom.ad"
    (.ad adId name source watchTime reward mediaSource channel value currency)

/-- Modelled from the spec: the service state right after `initialize` has
set the API key and built the transport client bound to it. -/
def stInit (apiKey : String) : SdkState :=
  { apiKey := some apiKey, client := some (mkTransportClient apiKey) }

/-- Modelled from the spec: `initialize` — fails with a configuration error
on an empty key (message from the unit tests) before any network or storage
access; otherwise sets the API key, builds the transport client, awaits
`fetchCreativeToken` and then `sendUserMetrics`, and returns the token
together with whatever `sendUserMetrics` returned.  A failure of either
sub-call propagates and fails the whole call. -/
def initializeSdk (st : SdkState) (store : Store) (env : Env) (apiKey : String) :
    Except SdkError (String × Option String) × SdkState × Store × List NetCall :=
  if apiKey = "" then
    (.error (.configurationError "API key is required to initialize the SDK."), st, store, [])
  else
    let st1 := stInit apiKey
    match fetchCreativeToken st1 store env with
    | (.error e, store1, tr1) => (.error e, st1, store1, tr1)
    | (.ok tok, store1, tr1) =>
      match sendUserMetrics st1 store1 env with
      | (.error e, store2, tr2) => (.error e, st1, store2, tr1 ++ tr2)
      | (.ok m, store2, tr2) => (.ok (tok, m), st1, store2, tr1 ++ tr2)

end AudienceLab

namespace GetTimezone

/-- Embedded from `src/utils/metrics/getTimezone.ts`: the promise resolves
with the value of the `Intl.DateTimeFormat().resolvedOptions().timeZone`
probe when the probe succeeds and rejects with the thrown error when it
fails.  The environmental probe outcome is the argument. -/
def getTimezone {ε : Type} (probe : Except ε String) : Except ε String :=
  match probe with
  | .ok tz => .ok tz
  | .error e => .error e

end GetTimezone

namespace AudienceLab

/-! ## Concrete sample data for witnesses -/

/-- The empty store: no key is present. -/
def emptyStore : Store := fun _ => none

/-- A fresh service: no API key, no transport client. -/
def sampleState : SdkState := {}

/-- Sample device probe result (values from the unit tests). -/
def sampleDevice : DeviceMetrics :=
  { deviceName := "Test Device", deviceModel := "Test Model", osVersion := "Test OS" }

/-- A sample environment whose endpoints both answer 2xx. -/
def sampleEnv : Env :=
  { today := 5
    nowIso := "2026-10-11T00:00:00.000Z"
    userAgent := "jsdom"
    timeZone := "Europe/Helsinki"
    device := sampleDevice
    utcOffset := "+3"
    tokenEndpoint := fun _ => .ok "new-token"
    webhookEndpoint := fun _ => .ok "ok" }

/-- A store holding only a cached creative token. -/
def sampleStoreCached : Store := saveItem emptyStore creativeTokenKey "tok"

/-! ## Helper lemmas on the retention calculator -/

theorem updateRetention_already_sent (today : Nat) (store : Store)
    (h : store lastSentMetricDateKey = some (formatDate today)) :
    updateRetention today store = (none, store) := by
  simp [updateRetention, h]

theorem updateRetention_some_lastSent {today : Nat} {store s1 : Store}
    {res : RetentionResult} (h : updateRetention today store = (some res, s1)) :
    s1 lastSentMetricDateKey = some (formatDate today) := by
  unfold updateRetention at h
  split at h
  · exact absurd (congrArg Prod.fst h) (by simp)
  · have hs : s1 = _ := (Prod.ext_iff.mp h.symm).2
    rw [hs]
    simp [saveItem, lastSentMetricDateKey, retentionDayKey]

theorem sendUserMetrics_already_sent (st : SdkState) (store : Store) (env : Env)
    (h : store lastSentMetricDateKey = some (formatDate env.today)) :
    sendUserMetrics st store env = (.ok none, store, []) := by
  simp [sendUserMetrics, updateRetention_already_sent env.today store h]

/-! ## Claim theorems -/

/-- C1: in every store state holding a creative token under `creativeToken`,
`fetchCreativeToken` returns that cached token, issues no network call (in
particular no POST to the token-issuance endpoint) and leaves the store
unchanged, regardless of the API key currently set in the service state. -/
theorem fetchCreativeToken_cached_no_network (st : SdkState) (store : Store)
    (env : Env) (tok : String) (h : store creativeTokenKey = some tok) :
    fetchCreativeToken st store env = (.ok tok, store, []) := by
  simp [fetchCreativeToken, h]

/-- C1 witness: with the token cached and an API key set, `fetchCreativeToken`
returns the cache and issues no network call. -/
theorem fetchCreativeToken_cached_no_network_witness :
    fetchCreativeToken
      { apiKey := some "other-key", client := some (mkTransportClient "other-key") }
      sampleStoreCached sampleEnv = (.ok "tok", sampleStoreCached, []) :=
  fetchCreativeToken_cached_no_network
    { apiKey := some "other-key", client := some (mkTransportClient "other-key") }
    sampleStoreCached sampleEnv "tok" rfl

/-- C4: the error classifier maps a failed HTTP call with status 401 to
exactly "API key is not valid.", status 400 to exactly "Bad request, data
not formatted properly.", status 404 to "Request failed: " followed by the
server body, every status at least 500 to "Server error: " followed by the
server body, and the absence of any response to exactly "Failed to
communicate with the server."; each outcome is that single human-readable
message. -/
theorem handleError_classification :
    (∀ d : String, handleError (.httpError 401 d) = "API key is not valid.") ∧
    (∀ d : String,
      handleError (.httpError 400 d) = "Bad request, data not formatted properly.") ∧
    (∀ d : String, handleError (.httpError 404 d) = "Request failed: " ++ d) ∧
    (∀ (s : Nat) (d : String), 500 ≤ s →
      handleError (.httpError s d) = "Server error: " ++ d) ∧
    handleError HttpFailure.noResponse = "Failed to communicate with the server." := by
  refine ⟨fun d => rfl, fun d => rfl, fun d => rfl, fun s d h => ?_, rfl⟩
  have h1 : ¬ s = 401 := by omega
  have h2 : ¬ s = 400 := by omega
  have h3 : ¬ s = 404 := by omega
  simp [handleError, h1, h2, h3, h]

/-- C4 witness: status 503 with body "server error" classifies as a server
error carrying the body. -/
theorem handleError_classification_witness :
    500 ≤ 503 ∧ handleError (.httpError 503 "server error") = "Server error: " ++ "server error" :=
  ⟨by decide, handleError_classification.2.2.2.1 503 "server error" (by decide)⟩

/-- C9: on the first-ever invocation of the retention calculator (no
first-login date, no last-sent date, no counter in the store),
`updateRetention` yields retention day "0" and backfill day "0", and
initializes the First-Login Date to today as the first-run bootstrap. -/
theorem updateRetention_first_run (today : Nat) (store : Store)
    (hfirst : store firstLoginDateKey = none)
    (hlast : store lastSentMetricDateKey = none)
    (_hcounter : store retentionDayKey = none) :
    (updateRetention today store).1 = some ⟨"0", "0"⟩ ∧
    (updateRetention today store).2 firstLoginDateKey = some (formatDate today) := by
  constructor <;>
  · unfold updateRetention
    rw [hlast, hfirst]
    simp [saveItem, parseDate_formatDate, natToString_zero,
      firstLoginDateKey, lastSentMetricDateKey, retentionDayKey]

/-- The webhook dispatch never writes to the store. -/
theorem sendWebhookRequest_store_unchanged (st : SdkState) (store : Store)
    (env : Env) (type : String) (payload : Payload) :
    (sendWebhookRequest st store env type payload).2.1 = store := by
  simp only [sendWebhookRequest]
  split <;> rfl

/-- A store holding only a last-sent-metric date equal to day 5's rendering. -/
def sampleStoreSentToday : Store :=
  saveItem emptyStore lastSentMetricDateKey (formatDate 5)

/-- C2: whenever the stored Last-Sent-Metric Date equals today's formatted
date, `sendUserMetrics` returns no result, issues no network call and
leaves the store unchanged; and after any successful send, a second call in
the same environment (same calendar date) is exactly such a no-op. -/
theorem sendUserMetrics_idempotent_per_day :
    (∀ (st : SdkState) (store : Store) (env : Env),
      store lastSentMetricDateKey = some (formatDate env.today) →
      sendUserMetrics st store env = (.ok none, store, [])) ∧
    (∀ (st : SdkState) (store store1 : Store) (env : Env) (r : String)
      (tr : List NetCall),
      sendUserMetrics st store env = (.ok (some r), store1, tr) →
      sendUserMetrics st store1 env = (.ok none, store1, [])) := by
  refine ⟨fun st store env h => sendUserMetrics_already_sent st store env h, ?_⟩
  intro st store store1 env r tr h
  unfold sendUserMetrics at h
  rcases hu : updateRetention env.today store with ⟨o, s1⟩
  rw [hu] at h
  cases o with
  | none => simp at h
  | some ret =>
    rcases hw : sendWebhookRequest st s1 env "retention" (.retention ret) with ⟨res, s2, tr2⟩
    have hs2 : s2 = s1 := by
      have hh := sendWebhookRequest_store_unchanged st s1 env "retention" (.retention ret)
      rw [hw] at hh
      exact hh
    simp only [hw] at h
    cases res with
    | error e => simp at h
    | ok r2 =>
      have hst : store1 = s1 := by
        have hp := congrArg (fun p => p.2.1) h
        simp at hp
        rw [← hp, hs2]
      rw [hst]
      exact sendUserMetrics_already_sent st s1 env (updateRetention_some_lastSent hu)

/-- C2 witness: a no-op second call, both from a store already stamped with
today's date and from the store a successful send leaves behind. -/
theorem sendUserMetrics_idempotent_per_day_witness :
    sendUserMetrics sampleState sampleStoreSentToday sampleEnv =
      (.ok none, sampleStoreSentToday, []) ∧
    sendUserMetrics sampleState ((sendUserMetrics sampleState emptyStore sampleEnv).2.1)
      sampleEnv =
      (.ok none, (sendUserMetrics sampleState emptyStore sampleEnv).2.1, []) :=
  ⟨sendUserMetrics_idempotent_per_day.1 sampleState sampleStoreSentToday sampleEnv rfl,
   sendUserMetrics_idempotent_per_day.2 sampleState emptyStore
     ((sendUserMetrics sampleState emptyStore sampleEnv).2.1) sampleEnv "ok"
     ((sendUserMetrics sampleState emptyStore sampleEnv).2.2) rfl⟩

/-- C3: when the stored Last-Sent-Metric Date is not today's date,
`updateRetention` computes the retention day as the floor of the calendar-day
difference between today and the first-login date and the backfill day as
the difference between today and the last-sent date (0 when there was no
prior send), persists today's date as the new Last-Sent-Metric Date and the
new Retention Day Counter, and returns both as decimal-string-encoded
non-negative integers. -/
theorem updateRetention_not_sent_today (today f : Nat) (lastOpt : Option Nat)
    (store : Store)
    (hfirst : store firstLoginDateKey = some (formatDate f))
    (hlast : store lastSentMetricDateKey = Option.map formatDate lastOpt)
    (hgate : Option.map formatDate lastOpt ≠ some (formatDate today)) :
    updateRetention today store =
      (some ⟨toString (today - f),
        toString (match lastOpt with | none => 0 | some l => today - l)⟩,
       fun k => if k = retentionDayKey then some (toString (today - f))
         else if k = lastSentMetricDateKey then some (formatDate today)
         else store k) := by
  unfold updateRetention
  rw [hlast, hfirst, if_neg hgate]
  have hstore :
      saveItem (saveItem store lastSentMetricDateKey (formatDate today))
        retentionDayKey (toString (today - f)) =
      fun k => if k = retentionDayKey then some (toString (today - f))
        else if k = lastSentMetricDateKey then some (formatDate today)
        else store k := by
    funext k
    simp [saveItem]
  cases lastOpt with
  | none => simp [saveItem, parseDate_formatDate, hstore]
  | some l => simp [saveItem, parseDate_formatDate, hstore]

/-- A store recording first login on day 2 and a last send on day 4. -/
def sampleStoreC3 : Store :=
  saveItem (saveItem emptyStore firstLoginDateKey (formatDate 2))
    lastSentMetricDateKey (formatDate 4)

/-- C3 witness: on day 5 with first login on day 2 and last send on day 4,
the calculator reports retention day "3", backfill day "1" and stamps the
store. -/
theorem updateRetention_not_sent_today_witness :
    updateRetention 5 sampleStoreC3 =
      (some ⟨"3", "1"⟩,
       fun k => if k = retentionDayKey then some "3"
         else if k = lastSentMetricDateKey then some (formatDate 5)
         else sampleStoreC3 k) :=
  updateRetention_not_sent_today 5 2 (some 4) sampleStoreC3 rfl rfl (by decide)

/-- C9 witness: the first-ever invocation on the empty store at day 5. -/
theorem updateRetention_first_run_witness :
    (updateRetention 5 emptyStore).1 = some ⟨"0", "0"⟩ ∧
    (updateRetention 5 emptyStore).2 firstLoginDateKey = some (formatDate 5) :=
  updateRetention_first_run 5 emptyStore rfl rfl rfl

/-- C5: for every non-empty API key, `initialize` sets the key (retrievable
through the getter), builds the transport client, awaits
`fetchCreativeToken` and `sendUserMetrics`, and returns the fetched or
cached token together with exactly the value `sendUserMetrics` returned;
a failure of either sub-call propagates unchanged and fails the whole
call. -/
theorem initializeSdk_orchestration (st : SdkState) (store : Store) (env : Env)
    (k : String) (hk : ¬ k = "") :
    (∀ (tok : String) (store1 : Store) (tr1 : List NetCall) (m : Option String)
      (store2 : Store) (tr2 : List NetCall),
      fetchCreativeToken (stInit k) store env = (.ok tok, store1, tr1) →
      sendUserMetrics (stInit k) store1 env = (.ok m, store2, tr2) →
      initializeSdk st store env k = (.ok (tok, m), stInit k, store2, tr1 ++ tr2) ∧
      getApiKey (stInit k) = .ok k) ∧
    (∀ (e : SdkError) (store1 : Store) (tr1 : List NetCall),
      fetchCreativeToken (stInit k) store env = (.error e, store1, tr1) →
      initializeSdk st store env k = (.error e, stInit k, store1, tr1)) ∧
    (∀ (tok : String) (store1 : Store) (tr1 : List NetCall) (e : SdkError)
      (store2 : Store) (tr2 : List NetCall),
      fetchCreativeToken (stInit k) store env = (.ok tok, store1, tr1) →
      sendUserMetrics (stInit k) store1 env = (.error e, store2, tr2) →
      initializeSdk st store env k = (.error e, stInit k, store2, tr1 ++ tr2)) := by
  refine ⟨?_, ?_, ?_⟩
  · intro tok store1 tr1 m store2 tr2 h1 h2
    refine ⟨?_, rfl⟩
    simp only [initializeSdk, if_neg hk, h1, h2]
  · intro e store1 tr1 h1
    simp only [initializeSdk, if_neg hk, h1]
  · intro tok store1 tr1 e store2 tr2 h1 h2
    simp only [initializeSdk, if_neg hk, h1, h2]

/-- An environment whose token-issuance endpoint answers 401. -/
def envFail : Env :=
  { sampleEnv with tokenEndpoint := fun _ => .fail (.httpError 401 "unauthorized") }

/-- C5 witness: with no cached token and a 401 from the token endpoint, the
classified fetch failure propagates out of `initialize` unchanged. -/
theorem initializeSdk_orchestration_witness :
    initializeSdk sampleState emptyStore envFail "test-api-key" =
      (.error (.transportError "API key is not valid."), stInit "test-api-key",
       emptyStore,
       [.postFetchToken (stInit "test-api-key").client (prepareTokenPayload envFail)]) :=
  (initializeSdk_orchestration sampleState emptyStore envFail "test-api-key"
      (by decide)).2.1 (.transportError "API key is not valid.") emptyStore
    [.postFetchToken (stInit "test-api-key").client (prepareTokenPayload envFail)] rfl

/-- C6: setting an empty API key always fails with a configuration error,
`initialize("")` always fails with a configuration error touching neither
state, store nor network, and after setting any non-empty key the getter
returns exactly that key. -/
theorem apiKey_configuration :
    (∀ st : SdkState,
      setApiKey st "" = .error (.configurationError "API key cannot be empty")) ∧
    (∀ (st : SdkState) (store : Store) (env : Env),
      initializeSdk st store env "" =
        (.error (.configurationError "API key is required to initialize the SDK."),
         st, store, [])) ∧
    (∀ (st : SdkState) (k : String), ¬ k = "" →
      ∃ st1, setApiKey st k = .ok st1 ∧ getApiKey st1 = .ok k) := by
  refine ⟨fun st => rfl, fun st store env => rfl, ?_⟩
  intro st k hk
  refine ⟨{ st with apiKey := some k, client := none }, ?_, rfl⟩
  simp [setApiKey, hk]

/-- C6 witness: the empty key is rejected and a non-empty key is
retrievable. -/
theorem apiKey_configuration_witness :
    ∃ st1, setApiKey sampleState "abc" = .ok st1 ∧ getApiKey st1 = .ok "abc" :=
  apiKey_configuration.2.2 sampleState "abc" (by decide)

/-- C7: every `sendWebhookRequest` call issues exactly one POST to the
webhook endpoint whose body carries the event type, the ISO-8601 creation
time, the cached creative token and retention day counter (absent if
missing), the device facts, the UTC offset and the caller's payload; it
leaves the store unchanged, returns the response body on HTTP 2xx and on
failure fails with the classified error. -/
theorem sendWebhookRequest_dispatch (st : SdkState) (store : Store) (env : Env)
    (type : String) (payload : Payload) :
    (sendWebhookRequest st store env type payload).2.2 =
      [.postWebhook st.client (webhookBodyOf store env type payload)] ∧
    (sendWebhookRequest st store env type payload).2.1 = store ∧
    (∀ r, env.webhookEndpoint (webhookBodyOf store env type payload) = .ok r →
      (sendWebhookRequest st store env type payload).1 = .ok r) ∧
    (∀ f, env.webhookEndpoint (webhookBodyOf store env type payload) = .fail f →
      (sendWebhookRequest st store env type payload).1 =
        .error (.transportError (handleError f))) := by
  refine ⟨?_, sendWebhookRequest_store_unchanged st store env type payload, ?_, ?_⟩
  · simp only [sendWebhookRequest]
    split <;> rfl
  · intro r h
    simp only [sendWebhookRequest, h]
  · intro f h
    simp only [sendWebhookRequest, h]

/-- C7 witness: a concrete dispatch against a 2xx endpoint returns the
response body. -/
theorem sendWebhookRequest_dispatch_witness :
    (sendWebhookRequest sampleState sampleStoreCached sampleEnv "test.event"
        (.raw [("test", "data")])).1 = .ok "ok" :=
  (sendWebhookRequest_dispatch sampleState sampleStoreCached sampleEnv "test.event"
      (.raw [("test", "data")])).2.2.1 "ok" rfl

/-- C8: `sendCustomPurchaseEvent` dispatches exactly one webhook of type
`custom.purchase` whose payload is exactly the fixed-shape record of the
five arguments and whose creative token field is the cached creative
token. -/
theorem sendCustomPurchaseEvent_payload (st : SdkState) (store : Store) (env : Env)
    (id name : String) (value : Rat) (currency status : String) :
    ∃ b : WebhookBody,
      (sendCustomPurchaseEvent st store env id name value currency status).2.2 =
        [.postWebhook st.client b] ∧
      b.type = "custom.purchase" ∧
      b.payload = .purchase id name value currency status ∧
      b.creativeToken = store creativeTokenKey := by
  refine ⟨webhookBodyOf store env "custom.purchase"
    (.purchase id name value currency status), ?_, rfl, rfl, rfl⟩
  simp only [sendCustomPurchaseEvent, sendWebhookRequest]
  split <;> rfl

/-- C8 witness: the concrete purchase event of the spec's example, with the
token "tok" cached. -/
theorem sendCustomPurchaseEvent_payload_witness :
    ∃ b : WebhookBody,
      (sendCustomPurchaseEvent sampleState sampleStoreCached sampleEnv
          "item123" "Premium" (9.99 : Rat) "USD" "completed").2.2 =
        [.postWebhook sampleState.client b] ∧
      b.type = "custom.purchase" ∧
      b.payload = .purchase "item123" "Premium" (9.99 : Rat) "USD" "completed" ∧
      b.creativeToken = some "tok" := by
  obtain ⟨b, h1, h2, h3, h4⟩ :=
    sendCustomPurchaseEvent_payload sampleState sampleStoreCached sampleEnv
      "item123" "Premium" (9.99 : Rat) "USD" "completed"
  exact ⟨b, h1, h2, h3, h4.trans rfl⟩

end AudienceLab

/-- C10: `getTimezone` resolves with exactly the probe's value when the
`Intl.DateTimeFormat().resolvedOptions().timeZone` probe succeeds and
rejects with the thrown error when it fails; it never substitutes a
placeholder value on probe failure. -/
theorem getTimezone_forwards_probe (ε : Type) (probe : Except ε String) :
    GetTimezone.getTimezone probe = probe := by
  cases probe <;> rfl
